import Mathlib

/-!
Shallow embedding of the `vdom` core (src/vdom/src/node.rs): the node and
node-list data model and the visit/diff double-dispatch protocol.

Modelling choices, all driven by the Rust source:

* The four concrete node structs `TagStatic`, `TagDyn`, `TextStatic`,
  `TextDyn` become the four constructors of one inductive `Node`.  In Rust
  they are distinct monomorphized types and `fn diff(&self, ancestor: &Self)`
  makes a current/ancestor variant mismatch unrepresentable; in the untyped
  embedding those impossible pairings are mapped to `none`.
* The node-list combinators — the generic pair impl `(L1, L2)` and the
  single-element wrapper `NodeListEntry` — become the generic inductive
  `NList` with constructors `pair` and `entry`; its `visitWith`/`diffWith`
  are the generic `NodeList::visit`/`NodeList::diff` impls, parameterized
  by the element operation exactly as the Rust impls are parameterized by
  the element type's trait impl.
* A visitor or differ is a consumer of callback invocations, so a traversal
  is embedded as the sequence (trace) of callback invocations it performs:
  `NEvent.onTag t` is the call `visitor.on_tag(t)`, `DEvent.onTag c a` is
  the call `differ.on_tag(c, a)`, and so on.  Running a concrete stateful
  consumer is folding its callbacks over the trace (`runDEvents`).
* `debug_assert_eq!` panics (aborting the traversal) in a debug build and
  is compiled out of a release build; diff therefore takes a `dbg : Bool`
  build flag and returns `Option` — `none` models the panic.
* The attribute subsystem (`crate::attr`) is not among the provided source
  files; the parts of it the claims need are modelled from the spec (see
  `Attr`).
-/

namespace VDom

/-- Modelled from the spec: the attribute entry of the `crate::attr` module,
whose source is not provided.  Per spec section 4.5 an attribute entry is a
name plus a static/dynamic value, mirroring the `Text` static/dynamic
split. -/
inductive Attr : Type where
  | AttrStatic (name value : String)
  | AttrDyn (name value : String)
deriving DecidableEq, Repr

/-- The node-list encoding: `entry` is the struct `NodeListEntry<N>(N)` and
`pair` is the two-element combinator `(L1, L2)`.  `AttrList` (spec 4.5) has
the structurally identical contract, so the type is generic in the element
type, as the Rust impls are. -/
inductive NList (α : Type) : Type where
  | entry (n : α)
  | pair (l r : NList α)
deriving DecidableEq, Repr

/-- The four concrete node types of node.rs: `TagStatic { tag, children,
attrs }`, `TagDyn { tag, children, attrs }`, `TextStatic(&'static str)`,
`TextDyn(Cow<str>)`.  A `&'static str` versus `Cow<'static, str>` both hold
a string value, so both are `String` here; staticness is the constructor. -/
inductive Node : Type where
  | TagStatic (tag : String) (children : NList Node) (attrs : NList Attr)
  | TagDyn (tag : String) (children : NList Node) (attrs : NList Attr)
  | TextStatic (content : String)
  | TextDyn (content : String)

/-- A `NodeVisitor` callback invocation: `on_tag(t)` or `on_text(t)`. -/
inductive NEvent : Type where
  | onTag (t : Node)
  | onText (t : Node)

/-- A `NodeDiffer` callback invocation: `on_tag(curr, ancestor)` or
`on_text(curr, ancestor)`. -/
inductive DEvent : Type where
  | onTag (curr ancestor : Node)
  | onText (curr ancestor : Node)

/-- An `AttrVisitor` callback invocation (modelled from the spec: one
callback per visited attribute entry). -/
inductive AVEvent : Type where
  | onAttr (a : Attr)

/-- An `AttrDiffer` callback invocation (modelled from the spec: one
callback per diffed attribute pair). -/
inductive ADEvent : Type where
  | onAttr (curr ancestor : Attr)

/-- `debug_assert_eq!(x, y)`: in a debug build (`dbg = true`) a mismatch
panics, aborting the traversal (`none`); in a release build the check is
compiled out. -/
def debugAssertEq (dbg : Bool) (x y : String) (k : Option α) : Option α :=
  if dbg = true ∧ x ≠ y then none else k

/-- `Node::visit` of each concrete node type: `TagStatic`/`TagDyn` perform
exactly `visitor.on_tag(self)`; `TextStatic`/`TextDyn` perform exactly
`visitor.on_text(self)`.  No impl recurses into children or attributes. -/
def Node.visit : Node → List NEvent
  | t@(.TagStatic _ _ _) => [.onTag t]
  | t@(.TagDyn _ _ _) => [.onTag t]
  | t@(.TextStatic _) => [.onText t]
  | t@(.TextDyn _) => [.onText t]

/-- `Node::diff` of each concrete node type.  `TagStatic::diff` runs
`debug_assert_eq!(self.tag, ancestor.tag)` and then `differ.on_tag(self,
ancestor)`; `TagDyn::diff` runs only `differ.on_tag(self, ancestor)`;
`TextStatic::diff` runs `debug_assert_eq!(self.0, ancestor.0)` and then
`differ.on_text(self, ancestor)`; `TextDyn::diff` runs only
`differ.on_text(self, ancestor)`.  The catch-all is unrepresentable in the
source, where `ancestor : &Self` forces the ancestor to be the same
concrete type. -/
def Node.diff (dbg : Bool) : Node → Node → Option (List DEvent)
  | c@(.TagStatic t _ _), a@(.TagStatic t2 _ _) =>
      debugAssertEq dbg t t2 (some [.onTag c a])
  | c@(.TagDyn _ _ _), a@(.TagDyn _ _ _) => some [.onTag c a]
  | c@(.TextStatic s), a@(.TextStatic s2) =>
      debugAssertEq dbg s s2 (some [.onText c a])
  | c@(.TextDyn _), a@(.TextDyn _) => some [.onText c a]
  | _, _ => none

/-- The generic `NodeList::visit` impls: `NodeListEntry` delegates to its
element's visit, `(L1, L2)` visits left then right.  The element operation
`f` stands for the element type's own trait impl. -/
def NList.visitWith (f : α → List ε) : NList α → List ε
  | .entry n => f n
  | .pair l r => l.visitWith f ++ r.visitWith f

/-- The generic `NodeList::diff` impls: `NodeListEntry` delegates to its
element's diff against the ancestor's element, `(L1, L2)` diffs left against
left then right against right.  The cross-variant cases are unrepresentable
in the source (`ancestor : &Self`). -/
def NList.diffWith (f : α → α → Option (List ε)) :
    NList α → NList α → Option (List ε)
  | .entry n, .entry n2 => f n n2
  | .pair l r, .pair l2 r2 => do
      let el ← l.diffWith f l2
      let er ← r.diffWith f r2
      pure (el ++ er)
  | _, _ => none

/-- `Attr::visit`, modelled from the spec: visiting an attribute entry
invokes the attribute visitor's callback on it. -/
def Attr.visit (a : Attr) : List AVEvent := [.onAttr a]

/-- `Attr::diff`, modelled from the spec: the static-value variant
debug-asserts value equality, mirroring `TextStatic`; the dynamic variant
only forwards the pair. -/
def Attr.diff (dbg : Bool) : Attr → Attr → Option (List ADEvent)
  | c@(.AttrStatic _ v), a@(.AttrStatic _ v2) =>
      debugAssertEq dbg v v2 (some [.onAttr c a])
  | c@(.AttrDyn _ _), a@(.AttrDyn _ _) => some [.onAttr c a]
  | _, _ => none

/-- `Tag::is_tag_static`: constantly `true` in the `TagStatic` impl,
constantly `false` in the `TagDyn` impl; `none` on the text types, which do
not implement `Tag`. -/
def Node.is_tag_static : Node → Option Bool
  | .TagStatic _ _ _ => some true
  | .TagDyn _ _ _ => some false
  | _ => none

/-- `Tag::tag`: both impls return the stored name (`self.tag`, resp.
`self.tag.as_ref()`). -/
def Node.tagName : Node → Option String
  | .TagStatic t _ _ => some t
  | .TagDyn t _ _ => some t
  | _ => none

/-- `Tag::visit_children`: both tag impls run `self.children.visit(visitor)`. -/
def Node.visit_children : Node → Option (List NEvent)
  | .TagStatic _ c _ => some (c.visitWith Node.visit)
  | .TagDyn _ c _ => some (c.visitWith Node.visit)
  | _ => none

/-- `Tag::diff_children`: both tag impls run
`self.children.diff(&ancestor.children, differ)`. -/
def Node.diff_children (dbg : Bool) : Node → Node → Option (List DEvent)
  | .TagStatic _ c _, .TagStatic _ c2 _ => c.diffWith (Node.diff dbg) c2
  | .TagDyn _ c _, .TagDyn _ c2 _ => c.diffWith (Node.diff dbg) c2
  | _, _ => none

/-- `Tag::visit_attr`: both tag impls run `self.attrs.visit(visitor)`. -/
def Node.visit_attr : Node → Option (List AVEvent)
  | .TagStatic _ _ a => some (a.visitWith Attr.visit)
  | .TagDyn _ _ a => some (a.visitWith Attr.visit)
  | _ => none

/-- `Tag::diff_attr`: both tag impls run
`self.attrs.diff(&ancestor.attrs, differ)`. -/
def Node.diff_attr (dbg : Bool) : Node → Node → Option (List ADEvent)
  | .TagStatic _ _ a, .TagStatic _ _ a2 => a.diffWith (Attr.diff dbg) a2
  | .TagDyn _ _ a, .TagDyn _ _ a2 => a.diffWith (Attr.diff dbg) a2
  | _, _ => none

/-- `Text::is_static`: constantly `true` in the `TextStatic` impl,
constantly `false` in the `TextDyn` impl; `none` on the tag types, which do
not implement `Text`. -/
def Node.is_static : Node → Option Bool
  | .TextStatic _ => some true
  | .TextDyn _ => some false
  | _ => none

/-- `Text::get`: both impls return the stored content. -/
def Node.get : Node → Option String
  | .TextStatic s => some s
  | .TextDyn s => some s
  | _ => none

/-- The visit event a single node produces: its `visit` performs exactly
this one callback. -/
def Node.eventOf (n : Node) : NEvent :=
  match n with
  | .TagStatic _ _ _ => .onTag n
  | .TagDyn _ _ _ => .onTag n
  | .TextStatic _ => .onText n
  | .TextDyn _ => .onText n

/-- The visit event of a node turned into the diff event of diffing that
node against itself. -/
def NEvent.dup : NEvent → DEvent
  | .onTag t => .onTag t t
  | .onText t => .onText t t

/-- The elements of a node list in declaration (left-to-right) order. -/
def NList.toList : NList α → List α
  | .entry n => [n]
  | .pair l r => l.toList ++ r.toList

/-- The number of elements of a node list. -/
def NList.size : NList α → Nat
  | .entry _ => 1
  | .pair l r => l.size + r.size

/-- Whether two nodes are the same concrete Rust type (the only property
`NodeList::diff` can depend on besides the names and contents, since it
never recurses into children). -/
def Node.sameVariant : Node → Node → Bool
  | .TagStatic _ _ _, .TagStatic _ _ _ => true
  | .TagDyn _ _ _, .TagDyn _ _ _ => true
  | .TextStatic _, .TextStatic _ => true
  | .TextDyn _, .TextDyn _ => true
  | _, _ => false

/-- Element-wise variant agreement of two node lists of identical pair
nesting — the property the Rust type system guarantees for the two
arguments of `NodeList::diff` (both have type `&Self`). -/
def NList.sameShape (f : α → α → Bool) : NList α → NList α → Bool
  | .entry n, .entry n2 => f n n2
  | .pair l r, .pair l2 r2 => l.sameShape f l2 && r.sameShape f r2
  | _, _ => false

/-- Running a concrete stateful differ over a trace: each `on_tag` /
`on_text` invocation updates the differ's state. -/
def runDEvents (onTag onText : σ → Node → Node → σ) (s : σ) :
    List DEvent → σ
  | [] => s
  | .onTag c a :: es => runDEvents onTag onText (onTag s c a) es
  | .onText c a :: es => runDEvents onTag onText (onText s c a) es

/-- A diff call's world: the consumer's state together with the two
borrowed snapshots. -/
structure DiffWorld (σ : Type) : Type where
  state : σ
  curr : Node
  ancestor : Node

/-- A full `Node::diff` call with a concrete stateful differ: the node's
diff performs its callback invocations on the differ (updating only the
differ's own state); the two snapshots are borrowed immutably (`&self`,
`&Self`) for the duration of the call. -/
def Node.diffCall (dbg : Bool) (onTag onText : σ → Node → Node → σ)
    (w : DiffWorld σ) : Option (DiffWorld σ) :=
  (w.curr.diff dbg w.ancestor).map fun evts =>
    { state := runDEvents onTag onText w.state evts
      curr := w.curr
      ancestor := w.ancestor }

/-! Helper lemmas -/

theorem visit_eq_eventOf (n : Node) : n.visit = [n.eventOf] := by
  cases n <;> rfl

theorem diff_self_eq (dbg : Bool) (n : Node) :
    n.diff dbg n = some (n.visit.map NEvent.dup) := by
  cases n <;> simp [Node.diff, Node.visit, NEvent.dup, debugAssertEq]

theorem diff_false_total (c a : Node) (h : Node.sameVariant c a = true) :
    ∃ evts, Node.diff false c a = some evts := by
  cases c <;> cases a <;>
    simp_all [Node.sameVariant, Node.diff, debugAssertEq]

theorem diffWith_false_total (l l2 : NList Node)
    (h : l.sameShape Node.sameVariant l2 = true) :
    ∃ evts, l.diffWith (Node.diff false) l2 = some evts := by
  induction l generalizing l2 with
  | entry n =>
    cases l2 with
    | entry n2 => exact diff_false_total n n2 (by simpa [NList.sameShape] using h)
    | pair _ _ => simp [NList.sameShape] at h
  | pair a b iha ihb =>
    cases l2 with
    | entry _ => simp [NList.sameShape] at h
    | pair a2 b2 =>
      simp only [NList.sameShape, Bool.and_eq_true] at h
      obtain ⟨e1, h1⟩ := iha a2 h.1
      obtain ⟨e2, h2⟩ := ihb b2 h.2
      exact ⟨e1 ++ e2, by simp [NList.diffWith, h1, h2]⟩

/-! Claim theorems -/

/-- C1: for every concrete node type, `visit` performs exactly one callback
invocation — `on_tag(self)` for the tag types, `on_text(self)` for the text
types — and `diff` performs exactly the corresponding paired invocation
`on_tag(self, ancestor)` / `on_text(self, ancestor)`; the singleton traces
show that neither operation recurses into children or attributes.  For
`TagStatic`/`TextStatic` the diff conjuncts cover every build when the
asserted field is equal and every input in a release build (the
debug-assertion interaction is claim C3/C4/C10's subject). -/
theorem node_dispatch_single_callback :
    (∀ t c a, Node.visit (.TagStatic t c a) = [NEvent.onTag (.TagStatic t c a)]) ∧
    (∀ t c a, Node.visit (.TagDyn t c a) = [NEvent.onTag (.TagDyn t c a)]) ∧
    (∀ s, Node.visit (.TextStatic s) = [NEvent.onText (.TextStatic s)]) ∧
    (∀ s, Node.visit (.TextDyn s) = [NEvent.onText (.TextDyn s)]) ∧
    (∀ dbg t c a c2 a2, Node.diff dbg (.TagStatic t c a) (.TagStatic t c2 a2) =
      some [DEvent.onTag (.TagStatic t c a) (.TagStatic t c2 a2)]) ∧
    (∀ t t2 c a c2 a2, Node.diff false (.TagStatic t c a) (.TagStatic t2 c2 a2) =
      some [DEvent.onTag (.TagStatic t c a) (.TagStatic t2 c2 a2)]) ∧
    (∀ dbg t t2 c a c2 a2, Node.diff dbg (.TagDyn t c a) (.TagDyn t2 c2 a2) =
      some [DEvent.onTag (.TagDyn t c a) (.TagDyn t2 c2 a2)]) ∧
    (∀ dbg s, Node.diff dbg (.TextStatic s) (.TextStatic s) =
      some [DEvent.onText (.TextStatic s) (.TextStatic s)]) ∧
    (∀ dbg s s2, Node.diff dbg (.TextDyn s) (.TextDyn s2) =
      some [DEvent.onText (.TextDyn s) (.TextDyn s2)]) := by
  refine ⟨fun t c a => rfl, fun t c a => rfl, fun s => rfl, fun s => rfl,
    ?_, ?_, fun dbg t t2 c a c2 a2 => rfl, ?_, fun dbg s s2 => rfl⟩ <;>
    intros <;> simp [Node.diff, debugAssertEq]

/-- C2: both traversals of a node list follow the pair nesting depth-first
left-to-right: the entry wrapper delegates to its element, the pair
combinator handles left then right, so `Pair(Pair(A,B),C)` yields the
callbacks for A, B, C in that order for visit and for diff; diff pairs each
current element with the ancestor element at the identical structural
position.  The final conjunct expresses the absence of a runtime shape
check: on same-shape inputs — the only ones the Rust `&Self` signature can
express — a release-build diff always completes with a trace, never
reaching an error branch. -/
theorem nodelist_traversal_declaration_order :
    (∀ (n : Node), NList.visitWith Node.visit (.entry n) = n.visit) ∧
    (∀ (l r : NList Node), NList.visitWith Node.visit (.pair l r) =
      NList.visitWith Node.visit l ++ NList.visitWith Node.visit r) ∧
    (∀ dbg (n n2 : Node), NList.diffWith (Node.diff dbg) (.entry n) (.entry n2) =
      Node.diff dbg n n2) ∧
    (∀ dbg (l r l2 r2 : NList Node) el er,
      NList.diffWith (Node.diff dbg) l l2 = some el →
      NList.diffWith (Node.diff dbg) r r2 = some er →
      NList.diffWith (Node.diff dbg) (.pair l r) (.pair l2 r2) = some (el ++ er)) ∧
    (∀ (A B C : Node), NList.visitWith Node.visit
      (.pair (.pair (.entry A) (.entry B)) (.entry C)) =
      [A.eventOf, B.eventOf, C.eventOf]) ∧
    (∀ dbg a b c a2 b2 c2, NList.diffWith (Node.diff dbg)
      (.pair (.pair (.entry (.TextDyn a)) (.entry (.TextDyn b))) (.entry (.TextDyn c)))
      (.pair (.pair (.entry (.TextDyn a2)) (.entry (.TextDyn b2))) (.entry (.TextDyn c2))) =
      some [DEvent.onText (.TextDyn a) (.TextDyn a2),
            DEvent.onText (.TextDyn b) (.TextDyn b2),
            DEvent.onText (.TextDyn c) (.TextDyn c2)]) ∧
    (∀ (l l2 : NList Node), l.sameShape Node.sameVariant l2 = true →
      ∃ evts, l.diffWith (Node.diff false) l2 = some evts) := by
  refine ⟨fun n => rfl, fun l r => rfl, fun dbg n n2 => rfl, ?_, ?_, ?_, diffWith_false_total⟩
  · intro dbg l r l2 r2 el er h1 h2
    simp [NList.diffWith, h1, h2]
  · intro A B C
    simp [NList.visitWith, visit_eq_eventOf]
  · intro dbg a b c a2 b2 c2
    simp [NList.diffWith, Node.diff]

/-- C2 witness: the pair-diff conjunct and the no-shape-check conjunct
applied to concrete same-shape lists. -/
theorem nodelist_traversal_declaration_order_witness :
    NList.diffWith (Node.diff false)
      (.pair (.entry (.TextDyn "x")) (.entry (.TextDyn "y")))
      (.pair (.entry (.TextDyn "x0")) (.entry (.TextDyn "y0"))) =
      some ([DEvent.onText (.TextDyn "x") (.TextDyn "x0")] ++
        [DEvent.onText (.TextDyn "y") (.TextDyn "y0")]) ∧
    ∃ evts, NList.diffWith (Node.diff false)
      (.pair (.entry (.TextDyn "x")) (.entry (.TagDyn "div" (.entry (.TextStatic "h")) (.entry (.AttrDyn "k" "v")))))
      (.pair (.entry (.TextDyn "y")) (.entry (.TagDyn "span" (.entry (.TextStatic "h")) (.entry (.AttrDyn "k" "w")))))
      = some evts :=
  ⟨nodelist_traversal_declaration_order.2.2.2.1 false
    (.entry (.TextDyn "x")) (.entry (.TextDyn "y"))
    (.entry (.TextDyn "x0")) (.entry (.TextDyn "y0")) _ _ rfl rfl,
   nodelist_traversal_declaration_order.2.2.2.2.2.2 _ _ (by rfl)⟩

/-- C3: `TagStatic::diff` checks `debug_assert_eq!(self.tag, ancestor.tag)`
before invoking the differ — in a debug build a name mismatch aborts with
no callback at all, while in a release build the check is compiled out and
the callback runs for any pair of names; `TagDyn::diff` performs no
assertion for any pair of names in any build. -/
theorem tag_debug_assert_static_only :
    (∀ t t2 c a c2 a2, t ≠ t2 →
      Node.diff true (.TagStatic t c a) (.TagStatic t2 c2 a2) = none) ∧
    (∀ t t2 c a c2 a2, Node.diff false (.TagStatic t c a) (.TagStatic t2 c2 a2) =
      some [DEvent.onTag (.TagStatic t c a) (.TagStatic t2 c2 a2)]) ∧
    (∀ dbg t t2 c a c2 a2, Node.diff dbg (.TagDyn t c a) (.TagDyn t2 c2 a2) =
      some [DEvent.onTag (.TagDyn t c a) (.TagDyn t2 c2 a2)]) := by
  refine ⟨?_, ?_, fun dbg t t2 c a c2 a2 => rfl⟩ <;>
    intros <;> simp_all [Node.diff, debugAssertEq]

/-- C3 witness: concrete mismatching static names in a debug build. -/
theorem tag_debug_assert_static_only_witness :
    Node.diff true
      (.TagStatic "div" (.entry (.TextStatic "h")) (.entry (.AttrStatic "k" "v")))
      (.TagStatic "span" (.entry (.TextStatic "h")) (.entry (.AttrStatic "k" "v"))) = none :=
  tag_debug_assert_static_only.1 "div" "span" _ _ _ _ (by decide)

/-- C4: `TextStatic::diff` checks `debug_assert_eq!` on the contents — a
debug-build mismatch aborts with no callback, a release build skips the
check; `TextDyn::diff` performs no assertion or comparison of any kind: for
every pair of contents, equal or not, the unmodified (current, ancestor)
pair is handed to the differ's text callback. -/
theorem text_debug_assert_static_only :
    (∀ s s2, s ≠ s2 → Node.diff true (.TextStatic s) (.TextStatic s2) = none) ∧
    (∀ s s2, Node.diff false (.TextStatic s) (.TextStatic s2) =
      some [DEvent.onText (.TextStatic s) (.TextStatic s2)]) ∧
    (∀ dbg s s2, Node.diff dbg (.TextDyn s) (.TextDyn s2) =
      some [DEvent.onText (.TextDyn s) (.TextDyn s2)]) := by
  refine ⟨?_, ?_, fun dbg s s2 => rfl⟩ <;>
    intros <;> simp_all [Node.diff, debugAssertEq]

/-- C4 witness: concrete mismatching static contents in a debug build. -/
theorem text_debug_assert_static_only_witness :
    Node.diff true (.TextStatic "hello") (.TextStatic "world") = none :=
  text_debug_assert_static_only.1 "hello" "world" (by decide)

/-- C5: diffing any tree value against a structurally equal value — same
shape and equal names/contents at every position, i.e. the identical value
in this embedding — succeeds even in a debug build (no assertion fires) and
produces exactly the expected callbacks, each with an equal
(current, ancestor) pair: the diff trace is the visit trace with every node
paired with itself, both for a single node and for every node list. -/
theorem diff_equal_snapshots_no_assert :
    (∀ (dbg : Bool) (n : Node), n.diff dbg n = some (n.visit.map NEvent.dup)) ∧
    (∀ (dbg : Bool) (l : NList Node), l.diffWith (Node.diff dbg) l =
      some ((l.visitWith Node.visit).map NEvent.dup)) := by
  refine ⟨fun dbg n => diff_self_eq dbg n, fun dbg l => ?_⟩
  induction l with
  | entry n => simpa [NList.diffWith, NList.visitWith] using diff_self_eq dbg n
  | pair a b iha ihb => simp [NList.diffWith, NList.visitWith, iha, ihb]

theorem toList_length (l : NList α) : l.toList.length = l.size := by
  induction l <;> simp [NList.toList, NList.size, *]

/-- C6: visiting a node list containing exactly N elements performs exactly
N callbacks, one per element in declaration order — the trace is precisely
the flattened element sequence mapped to each element's single event, so
none is skipped and none is duplicated, for every nesting of the pair
combinator and the entry wrapper. -/
theorem visit_count_matches_leaves :
    ∀ (l : NList Node),
      NList.visitWith Node.visit l = l.toList.map Node.eventOf ∧
      (NList.visitWith Node.visit l).length = l.size := by
  intro l
  induction l with
  | entry n => simp [NList.visitWith, NList.toList, NList.size, visit_eq_eventOf]
  | pair a b iha ihb =>
    simp [NList.visitWith, NList.toList, NList.size, iha.1, ihb.1, iha.2, ihb.2,
      toList_length]

/-- C7: for both tag types, the name accessor returns the stored name, and
the children/attribute operations delegate exactly to the corresponding
list's own visit/diff — `visit_children`/`visit_attr` produce precisely the
child list's (resp. attribute list's) own visit trace, and
`diff_children`/`diff_attr` produce precisely the child list's (resp.
attribute list's) own diff of current-children against ancestor-children.
The `AttrList` operations are modelled from the spec, `crate::attr` not
being among the provided sources. -/
theorem tag_accessor_delegation :
    (∀ t c a, Node.tagName (.TagStatic t c a) = some t) ∧
    (∀ t c a, Node.tagName (.TagDyn t c a) = some t) ∧
    (∀ t c a, Node.visit_children (.TagStatic t c a) = some (c.visitWith Node.visit)) ∧
    (∀ t c a, Node.visit_children (.TagDyn t c a) = some (c.visitWith Node.visit)) ∧
    (∀ dbg t c a t2 c2 a2, Node.diff_children dbg (.TagStatic t c a) (.TagStatic t2 c2 a2) =
      c.diffWith (Node.diff dbg) c2) ∧
    (∀ dbg t c a t2 c2 a2, Node.diff_children dbg (.TagDyn t c a) (.TagDyn t2 c2 a2) =
      c.diffWith (Node.diff dbg) c2) ∧
    (∀ t c a, Node.visit_attr (.TagStatic t c a) = some (a.visitWith Attr.visit)) ∧
    (∀ t c a, Node.visit_attr (.TagDyn t c a) = some (a.visitWith Attr.visit)) ∧
    (∀ dbg t c a t2 c2 a2, Node.diff_attr dbg (.TagStatic t c a) (.TagStatic t2 c2 a2) =
      a.diffWith (Attr.diff dbg) a2) ∧
    (∀ dbg t c a t2 c2 a2, Node.diff_attr dbg (.TagDyn t c a) (.TagDyn t2 c2 a2) =
      a.diffWith (Attr.diff dbg) a2) :=
  ⟨fun _ _ _ => rfl, fun _ _ _ => rfl, fun _ _ _ => rfl, fun _ _ _ => rfl,
   fun _ _ _ _ _ _ _ => rfl, fun _ _ _ _ _ _ _ => rfl, fun _ _ _ => rfl,
   fun _ _ _ => rfl, fun _ _ _ _ _ _ _ => rfl, fun _ _ _ _ _ _ _ => rfl⟩

/-- C8: the staticness predicate of a concrete node is a constant of its
concrete type — `is_tag_static` is `true` on `TagStatic` and `false` on
`TagDyn` for every stored name/children/attrs, and `is_static` is `true`
on `TextStatic` and `false` on `TextDyn` for every content — and since a
diff call hands back both snapshots unchanged (visit and diff never mutate
a node), the predicate's value is the same after any number of calls: after
any successful diff call, both snapshots' staticness values are exactly
what they were before. -/
theorem staticness_constant :
    (∀ t c a, Node.is_tag_static (.TagStatic t c a) = some true) ∧
    (∀ t c a, Node.is_tag_static (.TagDyn t c a) = some false) ∧
    (∀ s, Node.is_static (.TextStatic s) = some true) ∧
    (∀ s, Node.is_static (.TextDyn s) = some false) ∧
    (∀ (σ : Type) (dbg : Bool) (f g : σ → Node → Node → σ) (w w2 : DiffWorld σ),
      Node.diffCall dbg f g w = some w2 →
      w2.curr.is_tag_static = w.curr.is_tag_static ∧
      w2.curr.is_static = w.curr.is_static ∧
      w2.ancestor.is_tag_static = w.ancestor.is_tag_static ∧
      w2.ancestor.is_static = w.ancestor.is_static) := by
  refine ⟨fun _ _ _ => rfl, fun _ _ _ => rfl, fun _ => rfl, fun _ => rfl, ?_⟩
  intro σ dbg f g w w2 h
  unfold Node.diffCall at h
  cases he : w.curr.diff dbg w.ancestor with
  | none => simp [he] at h
  | some evts =>
    simp only [he, Option.map_some] at h
    cases h
    exact ⟨rfl, rfl, rfl, rfl⟩

/-- C8 witness: the preservation conjunct applied to a concrete diff call
with a counting differ. -/
theorem staticness_constant_witness :
    (Node.diffCall true (fun s _ _ => s) (fun s _ _ => s + 1)
      { state := 0, curr := .TextDyn "count:1", ancestor := .TextDyn "count:0" }
      : Option (DiffWorld Nat)) =
      some { state := 1, curr := .TextDyn "count:1", ancestor := .TextDyn "count:0" } ∧
    Node.is_static (.TextDyn "count:1") = Node.is_static (.TextDyn "count:1") :=
  ⟨rfl, (staticness_constant.2.2.2.2 Nat true (fun s _ _ => s) (fun s _ _ => s + 1)
    { state := 0, curr := .TextDyn "count:1", ancestor := .TextDyn "count:0" }
    { state := 1, curr := .TextDyn "count:1", ancestor := .TextDyn "count:0" } rfl).2.1⟩

/-- C9: a diff call mutates neither tree and the core keeps no state of its
own: running a node's diff with any concrete stateful differ updates only
the differ's state — the current and ancestor snapshots coming out of the
call are exactly the snapshots that went in, field for field, and the
resulting differ state is exactly the fold of the differ's callbacks over
the call's trace, a pure function of the inputs alone. -/
theorem diff_no_mutation_frame :
    ∀ (σ : Type) (dbg : Bool) (f g : σ → Node → Node → σ) (w w2 : DiffWorld σ),
      Node.diffCall dbg f g w = some w2 →
      w2.curr = w.curr ∧ w2.ancestor = w.ancestor ∧
      ∃ evts, w.curr.diff dbg w.ancestor = some evts ∧
        w2.state = runDEvents f g w.state evts := by
  intro σ dbg f g w w2 h
  unfold Node.diffCall at h
  cases he : w.curr.diff dbg w.ancestor with
  | none => simp [he] at h
  | some evts =>
    simp only [he, Option.map_some] at h
    cases h
    exact ⟨rfl, rfl, evts, rfl, rfl⟩

/-- C9 witness: a concrete diff call with a counting differ leaves both
snapshots untouched. -/
theorem diff_no_mutation_frame_witness :
    (.TextDyn "count:1" : Node) = .TextDyn "count:1" ∧
    (.TextDyn "count:0" : Node) = .TextDyn "count:0" ∧
    ∃ evts, Node.diff false (.TextDyn "count:1") (.TextDyn "count:0") = some evts ∧
      (3 : Nat) = runDEvents (fun s _ _ => s) (fun s _ _ => s + 1) 2 evts := by
  have h := diff_no_mutation_frame Nat false (fun s _ _ => s) (fun s _ _ => s + 1)
    { state := 2, curr := .TextDyn "count:1", ancestor := .TextDyn "count:0" }
    { state := 3, curr := .TextDyn "count:1", ancestor := .TextDyn "count:0" } rfl
  exact h

/-- C10: in a debug build the static-variant equality assertion runs
strictly before the differ callback is dispatched — a `TagStatic` or
`TextStatic` diff whose ancestor name/content differs produces no callback
at all (the traversal aborts at the assertion), and conversely whenever a
debug-build static diff does produce its callback, the asserted fields are
equal: a `TagStatic` trace forces equal names, and a `TextStatic` trace
forces equal contents, so the text callback's current and ancestor leaves
are equal values. -/
theorem debug_assert_precedes_callback :
    (∀ t t2 c a c2 a2, t ≠ t2 →
      Node.diff true (.TagStatic t c a) (.TagStatic t2 c2 a2) = none) ∧
    (∀ t t2 c a c2 a2 evts,
      Node.diff true (.TagStatic t c a) (.TagStatic t2 c2 a2) = some evts → t = t2) ∧
    (∀ s s2, s ≠ s2 → Node.diff true (.TextStatic s) (.TextStatic s2) = none) ∧
    (∀ s s2 evts, Node.diff true (.TextStatic s) (.TextStatic s2) = some evts →
      s = s2 ∧ evts = [DEvent.onText (.TextStatic s) (.TextStatic s)]) := by
  refine ⟨?_, ?_, ?_, ?_⟩
  · intro t t2 c a c2 a2 h
    simp [Node.diff, debugAssertEq, h]
  · intro t t2 c a c2 a2 evts h
    by_contra hne
    simp [Node.diff, debugAssertEq, hne] at h
  · intro s s2 h
    simp [Node.diff, debugAssertEq, h]
  · intro s s2 evts h
    rcases eq_or_ne s s2 with he | hne
    · subst he
      simp [Node.diff, debugAssertEq] at h
      exact ⟨rfl, h.symm⟩
    · simp [Node.diff, debugAssertEq, hne] at h

/-- C10 witness: each conjunct applied to concrete mismatching and matching
static leaves and tags in a debug build. -/
theorem debug_assert_precedes_callback_witness :
    Node.diff true
      (.TagStatic "div" (.entry (.TextStatic "h")) (.entry (.AttrStatic "k" "v")))
      (.TagStatic "p" (.entry (.TextStatic "h")) (.entry (.AttrStatic "k" "v"))) = none ∧
    ("em" : String) = "em" ∧
    Node.diff true (.TextStatic "hello") (.TextStatic "hi") = none ∧
    ("hello" = "hello" ∧
      [DEvent.onText (.TextStatic "hello") (.TextStatic "hello")] =
      [DEvent.onText (.TextStatic "hello") (.TextStatic "hello")]) :=
  ⟨debug_assert_precedes_callback.1 "div" "p" _ _ _ _ (by decide),
   debug_assert_precedes_callback.2.1 "em" "em"
     (.entry (.TextStatic "h")) (.entry (.AttrStatic "k" "v"))
     (.entry (.TextStatic "h")) (.entry (.AttrStatic "k" "v")) _ rfl,
   debug_assert_precedes_callback.2.2.1 "hello" "hi" (by decide),
   debug_assert_precedes_callback.2.2.2 "hello" "hello" _ rfl⟩

end VDom
